import Mathlib

/-!
Shallow embedding of the PGW-Health-Pipeline snapshot-store code
(`src/increment_run.py`, with the duplicate Type Normalizer in
`src/initial_run.py`).  Pandas dataframes are modelled as lists of named,
dtyped columns; pandas timestamps are modelled by their civil fields
(pandas nanosecond timestamps always have year below 10000, so fixed-width
digit rendering of each field matches strftime).  The remote BigQuery call
is opaque: the orchestrator is parameterised by its result.
-/

namespace PGWPipeline

/-- A timezone-aware UTC timestamp, by civil fields, as carried by a pandas
`Timestamp`.  Chronological order on UTC timestamps is the lexicographic
order on these fields, realised through `TS.key`. -/
structure TS where
  year : Nat
  month : Nat
  day : Nat
  hour : Nat
  minute : Nat
  second : Nat
  usec : Nat
deriving DecidableEq, Repr

/-- Order-embedding of civil fields into `Nat`: for in-range fields
(month below 13, day below 32, and so on) this orders timestamps
chronologically, matching the numeric order of the underlying pandas
epoch value. -/
def TS.key (t : TS) : Nat :=
  (((((t.year * 13 + t.month) * 32 + t.day) * 24 + t.hour) * 60
      + t.minute) * 60 + t.second) * 1000000 + t.usec

/-- Larger of two timestamps, as used by a pandas `Series.max` fold. -/
def tsMax (a b : TS) : TS :=
  if a.key ≤ b.key then b else a

/-- A cell value of a dataframe column.  `null` models NaN/NaT, `date`
models the BigQuery date-only wire value carried by a `dbdate` column. -/
inductive Value where
  | null
  | int (n : Int)
  | str (s : String)
  | date (y m d : Nat)
  | timestamp (t : TS)
deriving DecidableEq, Repr

/-- A pandas column: its label, the name of its dtype (for example
"dbdate", "datetime64[ns, UTC]", "int64", "object"), and its cells. -/
structure Column where
  name : String
  dtype : String
  values : List Value
deriving DecidableEq, Repr

/-- A pandas dataframe, as a list of columns. -/
structure DataFrame where
  cols : List Column
deriving DecidableEq, Repr

/-- Number of rows (length of the first column; 0 for a column-less
frame). -/
def DataFrame.rowCount (df : DataFrame) : Nat :=
  match df.cols with
  | [] => 0
  | c :: _ => c.values.length

/-- Well-formedness: all columns have the same length. -/
def DataFrame.Wf (df : DataFrame) : Prop :=
  ∀ c ∈ df.cols, c.values.length = df.rowCount

instance (df : DataFrame) : Decidable df.Wf :=
  inferInstanceAs (Decidable (∀ c ∈ df.cols, c.values.length = df.rowCount))

/-- `df.empty` in pandas: true when the frame has no rows. -/
def DataFrame.isEmpty (df : DataFrame) : Bool :=
  df.rowCount == 0

/-- Row `i` of a frame, one optional cell per column. -/
def DataFrame.getRow (df : DataFrame) (i : Nat) : List (Option Value) :=
  df.cols.map (fun c => c.values.get? i)

/-- Boolean infix test on character lists. -/
def isInfixB (pat : List Char) : List Char → Bool
  | [] => pat.isEmpty
  | c :: rest => pat.isPrefixOf (c :: rest) || isInfixB pat rest

/-- Python substring test `pat in s`, on the underlying characters. -/
def containsSub (s pat : String) : Bool :=
  isInfixB pat.data s.data

/-- `pd.to_datetime` applied to one cell of a `dbdate` column: the
date-only wire value becomes a midnight timestamp, anything already a
timestamp (or missing) passes through. -/
def toDatetimeValue : Value → Value
  | .date y m d => .timestamp ⟨y, m, d, 0, 0, 0, 0⟩
  | v => v

/-- `clean_google_dtypes` (src/increment_run.py lines 12-21, duplicated in
src/initial_run.py lines 10-20): for every column whose dtype name
contains "dbdate", replace it by `pd.to_datetime` of the column, whose
dtype is the standard "datetime64[ns]"; every other column is untouched. -/
def clean_google_dtypes (df : DataFrame) : DataFrame :=
  ⟨df.cols.map (fun c =>
    if containsSub c.dtype "dbdate" then
      { name := c.name, dtype := "datetime64[ns]", values := c.values.map toDatetimeValue }
    else c)⟩

/-- On-disk parquet file: either a readable table or an unreadable
(corrupt) file. -/
inductive ParquetFile where
  | table (df : DataFrame)
  | corrupt
deriving DecidableEq, Repr

/-- `pd.api.types.is_datetime64_any_dtype`, by dtype name: true for
"datetime64[ns]" and "datetime64[ns, UTC]"-style dtypes. -/
def is_datetime64_any_dtype (dt : String) : Bool :=
  containsSub dt "datetime64"

/-- One cell of a column that already has a datetime64 dtype, as a
timestamp; NaT (and any ill-typed cell) contributes no timestamp. -/
def tsOfDatetimeValue : Value → Option TS
  | .timestamp t => some t
  | _ => none

/-- `pd.to_datetime(cell, utc=True)` on one cell of a non-datetime
column: outer `none` models the parse raising (the malformed-column
case); inner `none` models NaT.  Free-form string parsing is modelled as
raising. -/
def parseTSValue : Value → Option (Option TS)
  | .null => some none
  | .timestamp t => some (some t)
  | .date y m d => some (some ⟨y, m, d, 0, 0, 0, 0⟩)
  | _ => none

/-- `pd.to_datetime(series, utc=True)`: fails if any cell fails to
parse. -/
def to_datetime_utc : List Value → Option (List (Option TS))
  | [] => some []
  | v :: vs =>
    match parseTSValue v, to_datetime_utc vs with
    | some t, some ts => some (t :: ts)
    | _, _ => none

/-- `Series.max` over a datetime series: NaT entries are skipped; an
empty (or all-NaT) series has maximum NaT, modelled as `none`. -/
def seriesMax : List (Option TS) → Option TS
  | [] => none
  | none :: rest => seriesMax rest
  | some t :: rest =>
    match seriesMax rest with
    | none => some t
    | some m => some (tsMax t m)

/-- The timestamps of the watermark column: used as-is when the dtype is
already datetime64, otherwise coerced by `pd.to_datetime(..., utc=True)`
(which can raise, giving `none`). -/
def columnTimestamps (c : Column) : Option (List (Option TS)) :=
  if is_datetime64_any_dtype c.dtype then some (c.values.map tsOfDatetimeValue)
  else to_datetime_utc c.values

/-- Column lookup by label (`df[name]`; `none` models the KeyError of a
missing column). -/
def findCol (df : DataFrame) (name : String) : Option Column :=
  df.cols.find? (fun c => c.name == name)

/-- Decimal digit character of `n % 10`. -/
def digitChar (n : Nat) : Char :=
  match n % 10 with
  | 0 => '0' | 1 => '1' | 2 => '2' | 3 => '3' | 4 => '4'
  | 5 => '5' | 6 => '6' | 7 => '7' | 8 => '8' | _ => '9'

/-- Two fixed digits (strftime %m, %d, %H, %M, %S). -/
def pad2 (n : Nat) : List Char :=
  [digitChar (n / 10), digitChar n]

/-- Four fixed digits (strftime %Y; pandas years are below 10000). -/
def pad4 (n : Nat) : List Char :=
  [digitChar (n / 1000), digitChar (n / 100), digitChar (n / 10), digitChar n]

/-- Six fixed digits (strftime %f). -/
def pad6 (n : Nat) : List Char :=
  [digitChar (n / 100000), digitChar (n / 10000), digitChar (n / 1000),
   digitChar (n / 100), digitChar (n / 10), digitChar n]

/-- `max_ts.strftime("%Y-%m-%d %H:%M:%S.%f+00:00")` (src/increment_run.py
line 43). -/
def strftimeMicro (t : TS) : String :=
  String.mk (pad4 t.year ++ ['-'] ++ pad2 t.month ++ ['-'] ++ pad2 t.day
    ++ [' '] ++ pad2 t.hour ++ [':'] ++ pad2 t.minute ++ [':'] ++ pad2 t.second
    ++ ['.'] ++ pad6 t.usec ++ ['+', '0', '0', ':', '0', '0'])

/-- The literal fallback string of `get_watermark` (lines 30 and 47):
note it has no fractional-second field. -/
def epochSentinel : String := "1970-01-01 00:00:00+00:00"

/-- `get_watermark` (src/increment_run.py lines 23-47).  Missing file:
warning printed, epoch sentinel returned (full-load behaviour).  Present
file: the Max_InsertedAt column alone is read; any exception while
reading, coercing, or formatting (unreadable file, missing column,
unparseable cells, NaT maximum whose strftime raises) is caught by the
broad except and yields the same epoch sentinel. -/
def get_watermark (fs : Option ParquetFile) : String :=
  match fs with
  | none => epochSentinel
  | some .corrupt => epochSentinel
  | some (.table df) =>
    match findCol df "Max_InsertedAt" with
    | none => epochSentinel
    | some c =>
      match columnTimestamps c with
      | none => epochSentinel
      | some tss =>
        match seriesMax tss with
        | none => epochSentinel
        | some m => strftimeMicro m

/-- Castability of one cell to a target dtype, modelling the pandas cast
table on the dtypes this pipeline carries: anything casts to "object",
integers (and integer-looking strings) cast to "int64", timestamps and
date wire values cast to the datetime64 dtypes, date wire values cast to
"dbdate".  `none` models the cast raising. -/
def castValue (v : Value) (target : String) : Option Value :=
  if target = "object" then some v
  else if target = "int64" then
    match v with
    | .int n => some (.int n)
    | .str s => (s.toInt?).map Value.int
    | _ => none
  else if target = "datetime64[ns]" ∨ target = "datetime64[ns, UTC]" then
    match v with
    | .timestamp t => some (.timestamp t)
    | .date y m d => some (.timestamp ⟨y, m, d, 0, 0, 0, 0⟩)
    | .null => some .null
    | _ => none
  else if target = "dbdate" then
    match v with
    | .date y m d => some (.date y m d)
    | .null => some .null
    | _ => none
  else none

/-- Casting a whole column's cells: the cast raises (`none`) as soon as
any one cell fails to cast. -/
def castSeries : List Value → String → Option (List Value)
  | [], _ => some []
  | v :: vs, t =>
    match castValue v t, castSeries vs t with
    | some w, some ws => some (w :: ws)
    | _, _ => none

/-- `Series.astype(target, errors="ignore")`: on success the column gets
exactly the target dtype; on any cast error the original column is
returned unchanged. -/
def seriesAstypeIgnore (c : Column) (target : String) : Column :=
  match castSeries c.values target with
  | some ws => { name := c.name, dtype := target, values := ws }
  | none => c

/-- `df.dtypes.to_dict()`: the column-label-to-dtype association of a
frame. -/
def DataFrame.dtypesDict (df : DataFrame) : List (String × String) :=
  df.cols.map (fun c => (c.name, c.dtype))

/-- Per-column action of `df.astype(tm, errors="ignore")`: a column
listed in the mapping is cast best-effort to its target dtype, an
unlisted column is untouched. -/
def reconcileCol (tm : List (String × String)) (c : Column) : Column :=
  match tm.lookup c.name with
  | some t => seriesAstypeIgnore c t
  | none => c

/-- `df.astype(tm, errors="ignore")` (src/increment_run.py line 319).
Pandas first checks every key of the mapping against the frame's column
labels, raising KeyError if one is absent (`errors="ignore"` does not
suppress this); then each listed column is cast independently with
per-column error tolerance, and unlisted columns are untouched. -/
def DataFrame.astypeIgnore (df : DataFrame) (tm : List (String × String)) :
    Except String DataFrame :=
  if tm.all (fun p => df.cols.any (fun c => c.name == p.1)) then
    .ok ⟨df.cols.map (reconcileCol tm)⟩
  else
    .error "KeyError: Only a column name can be used for the key in a dtype mappings argument."

/-- One column of `pd.concat([a, b], ignore_index=True)` for frames of the
same column labels: values of the first frame followed by values of the
second; matching dtypes are kept, mismatched dtypes promote (modelled as
"object"). -/
def concatCol (a b : Column) : Column :=
  { name := a.name,
    dtype := if a.dtype == b.dtype then a.dtype else "object",
    values := a.values ++ b.values }

/-- `pd.concat([dfOld, dfNew], ignore_index=True)` on frames with the
same column labels, columnwise. -/
def concatIgnoreIndex (dfOld dfNew : DataFrame) : DataFrame :=
  ⟨List.zipWith concatCol dfOld.cols dfNew.cols⟩

/-- The body of the try block at src/increment_run.py lines 315-325: read
the existing table, align the batch dtypes to it, concatenate, and write
back.  `writeOk` injects the success or failure of the disk write
(`to_parquet`); the result is the fully merged table or the first raised
exception. -/
def mergeTry (dfOld dfNew : DataFrame) (writeOk : Bool) : Except String DataFrame :=
  match dfNew.astypeIgnore dfOld.dtypesDict with
  | .error e => .error e
  | .ok dfNew2 =>
    if writeOk then .ok (concatIgnoreIndex dfOld dfNew2)
    else .error "disk write error"

/-- Result of the remote BigQuery query (the opaque Fetch collaborator):
either a dataframe or a raised exception. -/
inductive FetchResult where
  | ok (df : DataFrame)
  | err (e : String)
deriving DecidableEq, Repr

/-- Outcome of one orchestrator run: the file afterwards, and the
exception that propagated out of `run_incremental_update`, if any. -/
structure RunOutcome where
  fileAfter : Option ParquetFile
  raised : Option String
deriving DecidableEq, Repr

/-- `run_incremental_update` (src/increment_run.py lines 49-332), with
the remote query result and the disk-write success supplied as
parameters.  The watermark is derived from the file, the fetch runs with
no surrounding try (its exception propagates before any file operation),
an empty fetch returns at once, otherwise the batch is normalized and
merged: with an existing readable file the whole read-align-concat-write
step sits in a try whose except merely prints (the exception is
swallowed and the run returns normally); with no file the batch is
written verbatim outside any try. -/
def run_incremental_update (file : Option ParquetFile) (fetch : FetchResult)
    (writeOk : Bool) : RunOutcome :=
  let _watermark := get_watermark file
  match fetch with
  | .err e => { fileAfter := file, raised := some e }
  | .ok dfNew =>
    if dfNew.isEmpty then { fileAfter := file, raised := none }
    else
      let dfNew := clean_google_dtypes dfNew
      match file with
      | some (.table dfOld) =>
        match mergeTry dfOld dfNew writeOk with
        | .ok combined => { fileAfter := some (.table combined), raised := none }
        | .error _ => { fileAfter := some (.table dfOld), raised := none }
      | some .corrupt =>
        { fileAfter := some .corrupt, raised := none }
      | none =>
        if writeOk then { fileAfter := some (.table dfNew), raised := none }
        else { fileAfter := none, raised := some "disk write error" }

/-! ## Helper lemmas -/

theorem digitChar_isDigit (n : Nat) : (digitChar n).isDigit = true := by
  unfold digitChar
  split <;> rfl

theorem data_mk (l : List Char) : (String.mk l).data = l := rfl

theorem castSeries_length (vs : List Value) (t : String) (ws : List Value)
    (h : castSeries vs t = some ws) : ws.length = vs.length := by
  induction vs generalizing ws with
  | nil => simp [castSeries] at h; simp [← h]
  | cons v vs ih =>
    simp only [castSeries] at h
    rcases hv : castValue v t with _ | w <;> rw [hv] at h
    · exact absurd h (by simp)
    · rcases hs : castSeries vs t with _ | ws2 <;> rw [hs] at h
      · exact absurd h (by simp)
      · cases h
        simp [ih ws2 hs]

theorem get?_append_lt {α : Type} (l1 l2 : List α) (i : Nat) (h : i < l1.length) :
    (l1 ++ l2).get? i = l1.get? i := by
  induction l1 generalizing i with
  | nil => simp at h
  | cons a l1 ih =>
    cases i with
    | zero => rfl
    | succ j =>
      simp only [List.cons_append, List.get?]
      exact ih j (by simpa using h)

theorem get?_append_ge {α : Type} (l1 l2 : List α) (j : Nat) :
    (l1 ++ l2).get? (l1.length + j) = l2.get? j := by
  induction l1 with
  | nil => simp
  | cons a l1 ih =>
    simpa [List.length_cons, Nat.succ_add] using ih

theorem seriesMax_eq_none (l : List (Option TS)) (h : seriesMax l = none) :
    ∀ t : TS, some t ∉ l := by
  induction l with
  | nil => simp
  | cons o rest ih =>
    intro t ht
    cases o with
    | none =>
      simp only [seriesMax] at h
      rcases List.mem_cons.1 ht with h1 | h1
      · exact absurd h1 (by simp)
      · exact ih h t h1
    | some t0 =>
      simp only [seriesMax] at h
      rcases hr : seriesMax rest with _ | m <;> rw [hr] at h <;> simp at h

theorem seriesMax_spec (l : List (Option TS)) (m : TS) (h : seriesMax l = some m) :
    some m ∈ l ∧ ∀ t : TS, some t ∈ l → t.key ≤ m.key := by
  induction l generalizing m with
  | nil => simp [seriesMax] at h
  | cons o rest ih =>
    cases o with
    | none =>
      simp only [seriesMax] at h
      obtain ⟨hmem, hub⟩ := ih m h
      refine ⟨List.mem_cons_of_mem _ hmem, ?_⟩
      intro t ht
      rcases List.mem_cons.1 ht with h1 | h1
      · exact absurd h1 (by simp)
      · exact hub t h1
    | some t0 =>
      simp only [seriesMax] at h
      rcases hr : seriesMax rest with _ | mr <;> rw [hr] at h
      · cases h
        refine ⟨List.mem_cons_self _ _, ?_⟩
        intro t ht
        rcases List.mem_cons.1 ht with h1 | h1
        · cases h1; exact Nat.le_refl _
        · exact absurd h1 (seriesMax_eq_none rest hr t)
      · cases h
        obtain ⟨hmem, hub⟩ := ih mr hr
        constructor
        · unfold tsMax
          split
          · exact List.mem_cons_of_mem _ hmem
          · exact List.mem_cons_self _ _
        · intro t ht
          have hmr_le : mr.key ≤ (tsMax t0 mr).key := by
            unfold tsMax; split <;> omega
          have ht0_le : t0.key ≤ (tsMax t0 mr).key := by
            unfold tsMax; split
            · omega
            · exact Nat.le_refl _
          rcases List.mem_cons.1 ht with h1 | h1
          · cases h1; exact ht0_le
          · exact Nat.le_trans (hub t h1) hmr_le

/-- Decidable check that a string has the canonical shape
`YYYY-MM-DD HH:MM:SS.ffffff+00:00` of a microsecond-precision UTC
timestamp: 32 characters, digits at the field positions, the fixed
separators, and the literal `+00:00` zone suffix. -/
def isCanonicalFormat (s : String) : Bool :=
  s.data.length == 32 &&
  [0, 1, 2, 3, 5, 6, 8, 9, 11, 12, 14, 15, 17, 18, 20, 21, 22, 23, 24,
    25].all (fun i => (s.data.getD i ' ').isDigit) &&
  s.data.getD 4 ' ' == '-' && s.data.getD 7 ' ' == '-' &&
  s.data.getD 10 ' ' == ' ' && s.data.getD 13 ' ' == ':' &&
  s.data.getD 16 ' ' == ':' && s.data.getD 19 ' ' == '.' &&
  s.data.getD 26 ' ' == '+' && s.data.getD 27 ' ' == '0' &&
  s.data.getD 28 ' ' == '0' && s.data.getD 29 ' ' == ':' &&
  s.data.getD 30 ' ' == '0' && s.data.getD 31 ' ' == '0'

theorem strftimeMicro_canonical (t : TS) :
    isCanonicalFormat (strftimeMicro t) = true := by
  simp only [isCanonicalFormat, strftimeMicro, pad4, pad2, pad6, data_mk,
    List.cons_append, List.nil_append]
  simp [List.getD, digitChar_isDigit]

theorem seriesAstypeIgnore_name (c : Column) (t : String) :
    (seriesAstypeIgnore c t).name = c.name := by
  unfold seriesAstypeIgnore
  rcases h : castSeries c.values t with _ | ws <;> simp

theorem seriesAstypeIgnore_length (c : Column) (t : String) :
    (seriesAstypeIgnore c t).values.length = c.values.length := by
  unfold seriesAstypeIgnore
  rcases h : castSeries c.values t with _ | ws
  · simp
  · simpa using castSeries_length c.values t ws h

theorem reconcileCol_name (tm : List (String × String)) (c : Column) :
    (reconcileCol tm c).name = c.name := by
  unfold reconcileCol
  rcases h : tm.lookup c.name with _ | t
  · rfl
  · exact seriesAstypeIgnore_name c t

theorem reconcileCol_length (tm : List (String × String)) (c : Column) :
    (reconcileCol tm c).values.length = c.values.length := by
  unfold reconcileCol
  rcases h : tm.lookup c.name with _ | t
  · rfl
  · exact seriesAstypeIgnore_length c t

theorem keys_check_iff (df : DataFrame) (tm : List (String × String)) :
    (tm.all (fun p => df.cols.any (fun c => c.name == p.1)) = true) ↔
    ∀ p ∈ tm, ∃ c ∈ df.cols, c.name = p.1 := by
  simp [List.all_eq_true, List.any_eq_true]

theorem astypeIgnore_ok (df : DataFrame) (tm : List (String × String))
    (hk : ∀ p ∈ tm, ∃ c ∈ df.cols, c.name = p.1) :
    df.astypeIgnore tm = .ok ⟨df.cols.map (reconcileCol tm)⟩ := by
  unfold DataFrame.astypeIgnore
  rw [if_pos ((keys_check_iff df tm).2 hk)]

theorem mem_zip_map_self {α : Type} (f : α → α) (l : List α) (p : α × α)
    (hp : p ∈ l.zip (l.map f)) : p.1 ∈ l ∧ p.2 = f p.1 := by
  induction l with
  | nil => simp at hp
  | cons a l ih =>
    simp only [List.map_cons, List.zip_cons_cons] at hp
    rcases List.mem_cons.1 hp with h | h
    · subst h
      exact ⟨List.mem_cons_self _ _, rfl⟩
    · obtain ⟨h1, h2⟩ := ih h
      exact ⟨List.mem_cons_of_mem _ h1, h2⟩

theorem zipWith_concatCol_get_left (os ns : List Column) (i : Nat)
    (hlen : os.length = ns.length) (hi : ∀ c ∈ os, i < c.values.length) :
    (List.zipWith concatCol os ns).map (fun c => c.values.get? i)
      = os.map (fun c => c.values.get? i) := by
  induction os generalizing ns with
  | nil => simp
  | cons a os ih =>
    cases ns with
    | nil => simp at hlen
    | cons b ns =>
      simp only [List.zipWith_cons_cons, List.map_cons]
      congr 1
      · show (a.values ++ b.values).get? i = a.values.get? i
        exact get?_append_lt _ _ _ (hi a (List.mem_cons_self _ _))
      · exact ih ns (by simpa using hlen) (fun c hc => hi c (List.mem_cons_of_mem _ hc))

theorem zipWith_concatCol_get_right (os ns : List Column) (N j : Nat)
    (hlen : os.length = ns.length) (hN : ∀ c ∈ os, c.values.length = N) :
    (List.zipWith concatCol os ns).map (fun c => c.values.get? (N + j))
      = ns.map (fun c => c.values.get? j) := by
  induction os generalizing ns with
  | nil =>
    cases ns with
    | nil => simp
    | cons b ns => simp at hlen
  | cons a os ih =>
    cases ns with
    | nil => simp at hlen
    | cons b ns =>
      simp only [List.zipWith_cons_cons, List.map_cons]
      congr 1
      · show (a.values ++ b.values).get? (N + j) = b.values.get? j
        rw [← hN a (List.mem_cons_self _ _)]
        exact get?_append_ge _ _ _
      · exact ih ns (by simpa using hlen) (fun c hc => hN c (List.mem_cons_of_mem _ hc))

theorem clean_rowCount (df : DataFrame) :
    (clean_google_dtypes df).rowCount = df.rowCount := by
  unfold clean_google_dtypes DataFrame.rowCount
  cases df.cols with
  | nil => rfl
  | cons c cs =>
    simp only [List.map_cons]
    split <;> simp

theorem datetime64ns_not_dbdate : containsSub "datetime64[ns]" "dbdate" = false := by
  decide

theorem map_reconcile_rowCount (tm : List (String × String)) (ns : List Column) :
    (DataFrame.mk (ns.map (reconcileCol tm))).rowCount
      = (DataFrame.mk ns).rowCount := by
  cases ns with
  | nil => rfl
  | cons d ds => exact reconcileCol_length tm d

theorem concat_rowCount (os ns : List Column) (h : os ≠ [])
    (hlen : os.length = ns.length) :
    (DataFrame.mk (List.zipWith concatCol os ns)).rowCount
      = (DataFrame.mk os).rowCount + (DataFrame.mk ns).rowCount := by
  cases os with
  | nil => exact absurd rfl h
  | cons a as =>
    cases ns with
    | nil => simp at hlen
    | cons b bs =>
      show (a.values ++ b.values).length = a.values.length + b.values.length
      exact List.length_append _ _

/-! ## Concrete frames used to instantiate the theorems -/

/-- A frame with a BigQuery date-only wire column and a dbtime column. -/
def exDbdateDf : DataFrame :=
  ⟨[⟨"Date", "dbdate", [.date 2026 1 2]⟩, ⟨"t", "dbtime", [.int 5]⟩]⟩

/-- A frame whose watermark column is present but not datetime-coercible. -/
def exMalformedDf : DataFrame :=
  ⟨[⟨"Max_InsertedAt", "object", [.str "oops"]⟩]⟩

/-- A snapshot table with a proper UTC watermark column (three rows, one
NaT). -/
def exWatermarkDf : DataFrame :=
  ⟨[⟨"Max_InsertedAt", "datetime64[ns, UTC]",
     [.timestamp ⟨2025, 12, 31, 23, 59, 59, 999999⟩, .null,
      .timestamp ⟨2026, 1, 2, 3, 4, 5, 678901⟩]⟩]⟩

/-- A fetched batch with zero rows. -/
def exEmptyDf : DataFrame :=
  ⟨[⟨"Max_InsertedAt", "datetime64[ns, UTC]", []⟩]⟩

/-- A fetched batch with one new row. -/
def exBatchDf : DataFrame :=
  ⟨[⟨"Max_InsertedAt", "datetime64[ns, UTC]",
     [.timestamp ⟨2026, 2, 1, 0, 0, 0, 0⟩]⟩]⟩

/-- A batch with one int-castable column and one non-castable column. -/
def exCastDf : DataFrame :=
  ⟨[⟨"Count", "object", [.int 7]⟩, ⟨"method", "object", [.str "xpay-bd"]⟩]⟩

/-- A target dtype mapping asking both columns of `exCastDf` to become
int64. -/
def exTargets : List (String × String) :=
  [("Count", "int64"), ("method", "int64")]

/-! ## Claim theorems -/

/-- C2: `get_watermark` never raises; a missing file yields the
epoch-start sentinel (the full-load signal), and an existing file that
is unreadable, lacks the watermark column, or whose column fails
datetime coercion yields the very same sentinel instead of propagating
the error. -/
theorem get_watermark_never_raises_fallback_sentinel :
    get_watermark none = epochSentinel ∧
    get_watermark (some ParquetFile.corrupt) = epochSentinel ∧
    (∀ df, findCol df "Max_InsertedAt" = none →
      get_watermark (some (ParquetFile.table df)) = epochSentinel) ∧
    (∀ df c, findCol df "Max_InsertedAt" = some c →
      columnTimestamps c = none →
      get_watermark (some (ParquetFile.table df)) = epochSentinel) := by
  refine ⟨rfl, rfl, ?_, ?_⟩
  · intro df h
    simp [get_watermark, h]
  · intro df c h1 h2
    simp [get_watermark, h1, h2]

theorem get_watermark_never_raises_fallback_sentinel_witness :
    get_watermark (some (ParquetFile.table exMalformedDf)) = epochSentinel :=
  get_watermark_never_raises_fallback_sentinel.2.2.2 exMalformedDf
    ⟨"Max_InsertedAt", "object", [.str "oops"]⟩ (by decide) (by decide)

/-- C3 as stated is false: the fallback sentinel returned for a missing
file is the 25-character "1970-01-01 00:00:00+00:00", which lacks the
fractional-second field of the canonical microsecond format. -/
theorem get_watermark_sentinel_not_canonical :
    get_watermark none = "1970-01-01 00:00:00+00:00" ∧
    isCanonicalFormat "1970-01-01 00:00:00+00:00" = false :=
  ⟨rfl, by decide⟩

/-- C3 amended: on the success path `get_watermark` returns the
chronological maximum of the watermark column, rendered by strftime with
microsecond precision in the canonical format
`YYYY-MM-DD HH:MM:SS.ffffff+00:00`; the fallback paths instead return
the epoch-start sentinel, which is not in that format. -/
theorem get_watermark_success_max_canonical (df : DataFrame) (c : Column)
    (tss : List (Option TS)) (m : TS)
    (h1 : findCol df "Max_InsertedAt" = some c)
    (h2 : columnTimestamps c = some tss)
    (h3 : seriesMax tss = some m) :
    get_watermark (some (ParquetFile.table df)) = strftimeMicro m ∧
    some m ∈ tss ∧
    (∀ t : TS, some t ∈ tss → t.key ≤ m.key) ∧
    isCanonicalFormat (strftimeMicro m) = true ∧
    isCanonicalFormat epochSentinel = false := by
  obtain ⟨hmem, hub⟩ := seriesMax_spec tss m h3
  refine ⟨?_, hmem, hub, strftimeMicro_canonical m, by decide⟩
  simp [get_watermark, h1, h2, h3]

theorem get_watermark_success_max_canonical_witness :
    get_watermark (some (ParquetFile.table exWatermarkDf))
      = strftimeMicro ⟨2026, 1, 2, 3, 4, 5, 678901⟩ ∧
    some (⟨2026, 1, 2, 3, 4, 5, 678901⟩ : TS) ∈
      [some (⟨2025, 12, 31, 23, 59, 59, 999999⟩ : TS), none,
       some (⟨2026, 1, 2, 3, 4, 5, 678901⟩ : TS)] ∧
    (∀ t : TS, some t ∈
      [some (⟨2025, 12, 31, 23, 59, 59, 999999⟩ : TS), none,
       some (⟨2026, 1, 2, 3, 4, 5, 678901⟩ : TS)] →
      t.key ≤ TS.key ⟨2026, 1, 2, 3, 4, 5, 678901⟩) ∧
    isCanonicalFormat (strftimeMicro ⟨2026, 1, 2, 3, 4, 5, 678901⟩) = true ∧
    isCanonicalFormat epochSentinel = false :=
  get_watermark_success_max_canonical exWatermarkDf
    ⟨"Max_InsertedAt", "datetime64[ns, UTC]",
     [.timestamp ⟨2025, 12, 31, 23, 59, 59, 999999⟩, .null,
      .timestamp ⟨2026, 1, 2, 3, 4, 5, 678901⟩]⟩
    [some ⟨2025, 12, 31, 23, 59, 59, 999999⟩, none,
     some ⟨2026, 1, 2, 3, 4, 5, 678901⟩]
    ⟨2026, 1, 2, 3, 4, 5, 678901⟩ (by decide) (by decide) (by decide)

/-- C4: a fetch of zero rows terminates the run successfully with no
file mutation, so running the sync twice with no new remote data leaves
the snapshot file identical after the second run. -/
theorem empty_fetch_is_idempotent_noop (file : Option ParquetFile)
    (df : DataFrame) (writeOk : Bool) (h : df.isEmpty = true) :
    (run_incremental_update file (.ok df) writeOk).fileAfter = file ∧
    (run_incremental_update file (.ok df) writeOk).raised = none ∧
    (run_incremental_update
        ((run_incremental_update file (.ok df) writeOk).fileAfter)
        (.ok df) writeOk).fileAfter = file := by
  simp [run_incremental_update, h]

theorem empty_fetch_is_idempotent_noop_witness :
    (run_incremental_update (some (ParquetFile.table exWatermarkDf))
        (.ok exEmptyDf) true).fileAfter = some (ParquetFile.table exWatermarkDf) ∧
    (run_incremental_update (some (ParquetFile.table exWatermarkDf))
        (.ok exEmptyDf) true).raised = none ∧
    (run_incremental_update
        ((run_incremental_update (some (ParquetFile.table exWatermarkDf))
            (.ok exEmptyDf) true).fileAfter)
        (.ok exEmptyDf) true).fileAfter = some (ParquetFile.table exWatermarkDf) :=
  empty_fetch_is_idempotent_noop (some (ParquetFile.table exWatermarkDf))
    exEmptyDf true (by decide)

/-- C6 names a real bug in the code: with an existing snapshot and a
disk-write failure during the merge step, the except branch at
src/increment_run.py line 327 merely prints the exception, so the run
finishes with no propagated error instead of aborting; the previous file
content is kept. -/
theorem merge_failure_swallowed_not_fatal :
    (run_incremental_update (some (ParquetFile.table exWatermarkDf))
        (.ok exBatchDf) false).raised = none ∧
    (run_incremental_update (some (ParquetFile.table exWatermarkDf))
        (.ok exBatchDf) false).fileAfter
      = some (ParquetFile.table exWatermarkDf) := by
  decide

/-- C7: `clean_google_dtypes` converts every column whose dtype name
contains the date-only wire type "dbdate" into the standard
"datetime64[ns]" timestamp dtype (applying `pd.to_datetime` to its
cells), so no column of the normalized frame retains the date-only wire
type. -/
theorem clean_google_dtypes_removes_dbdate (df : DataFrame) :
    (∀ c2 ∈ (clean_google_dtypes df).cols,
      containsSub c2.dtype "dbdate" = false) ∧
    (∀ p ∈ df.cols.zip (clean_google_dtypes df).cols,
      containsSub p.1.dtype "dbdate" = true →
        p.2.name = p.1.name ∧ p.2.dtype = "datetime64[ns]" ∧
        p.2.values = p.1.values.map toDatetimeValue) := by
  constructor
  · intro c2 hc2
    simp only [clean_google_dtypes, List.mem_map] at hc2
    obtain ⟨c, _, heq⟩ := hc2
    by_cases h : containsSub c.dtype "dbdate" = true
    · rw [if_pos h] at heq
      rw [← heq]
      exact datetime64ns_not_dbdate
    · rw [if_neg h] at heq
      rw [← heq]
      simpa using h
  · intro p hp h
    have h2 := (mem_zip_map_self _ df.cols p hp).2
    rw [h2, if_pos h]
    exact ⟨rfl, rfl, rfl⟩

theorem clean_google_dtypes_removes_dbdate_witness :
    containsSub (Column.mk "Date" "datetime64[ns]"
      [Value.timestamp ⟨2026, 1, 2, 0, 0, 0, 0⟩]).dtype "dbdate" = false :=
  (clean_google_dtypes_removes_dbdate exDbdateDf).1
    ⟨"Date", "datetime64[ns]", [.timestamp ⟨2026, 1, 2, 0, 0, 0, 0⟩]⟩
    (by decide)

/-- C8: an exception raised by the Fetch step propagates out of the run
(the query has no surrounding try), the snapshot file is untouched since
the failure precedes every file operation, and the next run re-derives
the same watermark from the unchanged file. -/
theorem fetch_failure_aborts_file_unchanged (file : Option ParquetFile)
    (e : String) (writeOk : Bool) :
    (run_incremental_update file (.err e) writeOk).fileAfter = file ∧
    (run_incremental_update file (.err e) writeOk).raised = some e ∧
    get_watermark (run_incremental_update file (.err e) writeOk).fileAfter
      = get_watermark file :=
  ⟨rfl, rfl, rfl⟩

/-- C9: when the snapshot file is absent at merge time, the run skips
schema reconciliation and writes the (normalized) non-empty batch
verbatim as the new table; its row count equals the batch row count. -/
theorem missing_file_writes_batch_verbatim (df : DataFrame)
    (h : df.isEmpty = false) :
    (run_incremental_update none (.ok df) true).fileAfter
      = some (ParquetFile.table (clean_google_dtypes df)) ∧
    (run_incremental_update none (.ok df) true).raised = none ∧
    (clean_google_dtypes df).rowCount = df.rowCount := by
  refine ⟨?_, ?_, clean_rowCount df⟩ <;> simp [run_incremental_update, h]

theorem missing_file_writes_batch_verbatim_witness :
    (run_incremental_update none (.ok exBatchDf) true).fileAfter
      = some (ParquetFile.table (clean_google_dtypes exBatchDf)) ∧
    (run_incremental_update none (.ok exBatchDf) true).raised = none ∧
    (clean_google_dtypes exBatchDf).rowCount = exBatchDf.rowCount :=
  missing_file_writes_batch_verbatim exBatchDf (by decide)

/-- C10: `clean_google_dtypes` leaves every column whose dtype name does
not contain "dbdate" fully unchanged, values and dtype alike; in
particular a column of the warehouse "dbtime" wire type passes through
unconverted. -/
theorem clean_google_dtypes_preserves_non_dbdate (df : DataFrame) :
    ∀ p ∈ df.cols.zip (clean_google_dtypes df).cols,
      containsSub p.1.dtype "dbdate" = false → p.2 = p.1 := by
  intro p hp h
  have h2 := (mem_zip_map_self _ df.cols p hp).2
  rw [h2, if_neg (by simp [h])]

theorem clean_google_dtypes_preserves_non_dbdate_witness :
    ((⟨"t", "dbtime", [.int 5]⟩, ⟨"t", "dbtime", [.int 5]⟩) :
        Column × Column).2
      = ((⟨"t", "dbtime", [.int 5]⟩, ⟨"t", "dbtime", [.int 5]⟩) :
        Column × Column).1 :=
  clean_google_dtypes_preserves_non_dbdate exDbdateDf
    (⟨"t", "dbtime", [.int 5]⟩, ⟨"t", "dbtime", [.int 5]⟩)
    (by decide) (by decide)

/-- C5 as stated is false: a target type map holding a key that is not a
column of the batch makes the astype call raise KeyError even with
errors="ignore", so an exception can propagate out of reconciliation. -/
theorem astype_unknown_key_raises :
    (DataFrame.mk [⟨"a", "int64", [.int 1]⟩]).astypeIgnore [("b", "int64")]
      = Except.error "KeyError: Only a column name can be used for the key in a dtype mappings argument." := by
  rfl

/-- C5 amended: for a target type map whose every key is a column of the
batch, reconciliation is per-column best-effort and raises nothing: a
column castable to its target type ends with exactly that dtype, a
non-castable column is left entirely unchanged, and columns the map does
not mention are untouched — each column independently of the others. -/
theorem astype_per_column_best_effort (df : DataFrame)
    (tm : List (String × String))
    (hk : ∀ p ∈ tm, ∃ c ∈ df.cols, c.name = p.1) :
    ∃ df2, df.astypeIgnore tm = Except.ok df2 ∧
      df2.cols.length = df.cols.length ∧
      ∀ p ∈ df.cols.zip df2.cols,
        (tm.lookup p.1.name = none → p.2 = p.1) ∧
        ∀ t, tm.lookup p.1.name = some t →
          (∀ ws, castSeries p.1.values t = some ws →
            p.2.name = p.1.name ∧ p.2.dtype = t ∧ p.2.values = ws) ∧
          (castSeries p.1.values t = none → p.2 = p.1) := by
  refine ⟨⟨df.cols.map (reconcileCol tm)⟩, astypeIgnore_ok df tm hk,
    by simp, ?_⟩
  intro p hp
  have h2 := (mem_zip_map_self _ df.cols p hp).2
  refine ⟨?_, ?_⟩
  · intro hnone
    rw [h2]
    simp [reconcileCol, hnone]
  · intro t ht
    refine ⟨?_, ?_⟩
    · intro ws hws
      rw [h2]
      simp [reconcileCol, ht, seriesAstypeIgnore, hws]
    · intro hnone
      rw [h2]
      simp [reconcileCol, ht, seriesAstypeIgnore, hnone]

theorem astype_per_column_best_effort_witness :
    ∃ df2, exCastDf.astypeIgnore exTargets = Except.ok df2 ∧
      df2.cols.length = exCastDf.cols.length ∧
      ∀ p ∈ exCastDf.cols.zip df2.cols,
        (exTargets.lookup p.1.name = none → p.2 = p.1) ∧
        ∀ t, exTargets.lookup p.1.name = some t →
          (∀ ws, castSeries p.1.values t = some ws →
            p.2.name = p.1.name ∧ p.2.dtype = t ∧ p.2.values = ws) ∧
          (castSeries p.1.values t = none → p.2 = p.1) :=
  astype_per_column_best_effort exCastDf exTargets (by decide)

/-- C1: merging a non-empty batch of M rows into an existing table of N
rows yields a table of exactly N + M rows — the N existing rows first,
unchanged and in their original order, followed by the M reconciled
batch rows in their incoming order. -/
theorem merge_appends_batch_after_existing (dfOld dfNew : DataFrame)
    (hcols : dfOld.cols ≠ [])
    (hwfO : dfOld.Wf)
    (hM : 0 < dfNew.rowCount)
    (hnames : dfOld.cols.map Column.name = dfNew.cols.map Column.name) :
    ∃ dfNew2 combined,
      dfNew.astypeIgnore dfOld.dtypesDict = Except.ok dfNew2 ∧
      mergeTry dfOld dfNew true = Except.ok combined ∧
      combined = concatIgnoreIndex dfOld dfNew2 ∧
      dfNew2.rowCount = dfNew.rowCount ∧
      combined.rowCount = dfOld.rowCount + dfNew.rowCount ∧
      (∀ i, i < dfOld.rowCount → combined.getRow i = dfOld.getRow i) ∧
      (∀ j, j < dfNew.rowCount →
        combined.getRow (dfOld.rowCount + j) = dfNew2.getRow j) := by
  have hkeys : ∀ p ∈ dfOld.dtypesDict, ∃ c ∈ dfNew.cols, c.name = p.1 := by
    intro p hp
    unfold DataFrame.dtypesDict at hp
    obtain ⟨c, hc, hpc⟩ := List.mem_map.1 hp
    have hn : c.name ∈ dfNew.cols.map Column.name := by
      rw [← hnames]
      exact List.mem_map_of_mem _ hc
    obtain ⟨c2, hc2, hc2n⟩ := List.mem_map.1 hn
    refine ⟨c2, hc2, ?_⟩
    rw [hc2n, ← hpc]
  have hast := astypeIgnore_ok dfNew dfOld.dtypesDict hkeys
  have hlen : dfOld.cols.length = dfNew.cols.length := by
    have := congrArg List.length hnames
    simpa using this
  have hlen2 : dfOld.cols.length
      = (dfNew.cols.map (reconcileCol dfOld.dtypesDict)).length := by
    simpa using hlen
  refine ⟨⟨dfNew.cols.map (reconcileCol dfOld.dtypesDict)⟩,
    concatIgnoreIndex dfOld ⟨dfNew.cols.map (reconcileCol dfOld.dtypesDict)⟩,
    hast, ?_, rfl, ?_, ?_, ?_, ?_⟩
  · unfold mergeTry
    rw [hast]
    rfl
  · exact map_reconcile_rowCount dfOld.dtypesDict dfNew.cols
  · have h5 := concat_rowCount dfOld.cols
      (dfNew.cols.map (reconcileCol dfOld.dtypesDict)) hcols hlen2
    rw [map_reconcile_rowCount] at h5
    exact h5
  · intro i hi
    show (List.zipWith concatCol dfOld.cols
        (dfNew.cols.map (reconcileCol dfOld.dtypesDict))).map
        (fun c => c.values.get? i) = dfOld.cols.map (fun c => c.values.get? i)
    exact zipWith_concatCol_get_left _ _ _ hlen2
      (fun c hc => by rw [hwfO c hc]; exact hi)
  · intro j hj
    show (List.zipWith concatCol dfOld.cols
        (dfNew.cols.map (reconcileCol dfOld.dtypesDict))).map
        (fun c => c.values.get? (dfOld.rowCount + j))
      = (dfNew.cols.map (reconcileCol dfOld.dtypesDict)).map
        (fun c => c.values.get? j)
    exact zipWith_concatCol_get_right _ _ _ _ hlen2 hwfO

theorem merge_appends_batch_after_existing_witness :
    ∃ dfNew2 combined,
      exBatchDf.astypeIgnore exWatermarkDf.dtypesDict = Except.ok dfNew2 ∧
      mergeTry exWatermarkDf exBatchDf true = Except.ok combined ∧
      combined = concatIgnoreIndex exWatermarkDf dfNew2 ∧
      dfNew2.rowCount = exBatchDf.rowCount ∧
      combined.rowCount = exWatermarkDf.rowCount + exBatchDf.rowCount ∧
      (∀ i, i < exWatermarkDf.rowCount →
        combined.getRow i = exWatermarkDf.getRow i) ∧
      (∀ j, j < exBatchDf.rowCount →
        combined.getRow (exWatermarkDf.rowCount + j) = dfNew2.getRow j) :=
  merge_appends_batch_after_existing exWatermarkDf exBatchDf
    (by decide) (by decide) (by decide) (by decide)

end PGWPipeline
